import Mathlib

/-!
Verification development for the MBAH-LookIt-API repository.

The Python sources under study are shallowly embedded as Lean functions:
pure string-manipulating template tags become Lean functions on `String`,
the Django `QueryDict` becomes an ordered association list from keys to value
lists, the study-type catalog of the rename migration becomes a list of
display names (rows identified by position), and fallible code (form
`clean` methods raising `ValidationError`, `objects.get` raising on a missed
or ambiguous lookup, `list.pop()` on an empty list) returns `Except`/`Option`.
Python's true division on integers is modelled exactly over `ℚ`.
-/

namespace LookIt

/-! ## studies/forms.py -/

/-- The exact-rational composite-age total that the claim and the spec name:
`years + months/12 + days/365` over `ℚ`.  The source evaluates this formula
in IEEE-754 double precision (see `pyAgeTotal` below); the exact form is
kept to state where the two diverge. -/
def ageTotal (years months days : ℕ) : ℚ :=
  (years : ℚ) + (months : ℚ) / 12 + (days : ℚ) / 365

/-- Floor of the base-2 logarithm of a natural number, by fueled halving:
`fuel = n` bounds the at most `log₂ n` halvings for every `n`, and the
recursion is structural, so it evaluates by kernel reduction. -/
def natLog2Aux : ℕ → ℕ → ℕ
  | 0, _ => 0
  | fuel + 1, m => if m ≤ 1 then 0 else natLog2Aux fuel (m / 2) + 1

/-- Floor of log₂ for naturals (`natLog2 n = ⌊log₂ n⌋` for `n ≥ 1`). -/
def natLog2 (n : ℕ) : ℕ :=
  natLog2Aux n n

/-- The rational `2 ^ e` for an integer exponent. -/
def qpow2 (e : ℤ) : ℚ :=
  if 0 ≤ e then ((2 ^ e.toNat : ℕ) : ℚ) else ((2 ^ (-e).toNat : ℕ) : ℚ)⁻¹

/-- Floor of log₂ of a positive rational: the numerator/denominator bit
lengths bracket it within one, and one comparison settles it. -/
def qFloorLog2 (q : ℚ) : ℤ :=
  let c : ℤ := (natLog2 q.num.toNat : ℤ) - (natLog2 q.den : ℤ)
  if qpow2 c ≤ q then c else c - 1

/-- Floor of a non-negative rational, via natural division. -/
def qFloorPos (s : ℚ) : ℤ :=
  ((s.num.toNat / s.den : ℕ) : ℤ)

/-- Round a positive rational to the IEEE-754 binary64 grid, round to
nearest with ties to even.  The grid step for a normal value is
`2^(⌊log₂ q⌋ - 52)` (53-bit significand); the exponent is clamped below at
the subnormal scale `2^-1074`. -/
def roundPosDouble (q : ℚ) : ℚ :=
  let e : ℤ := max (qFloorLog2 q - 52) (-1074)
  let step : ℚ := qpow2 e
  let s : ℚ := q / step
  let n : ℤ := qFloorPos s
  let n' : ℤ :=
    if s - n < 1/2 then n
    else if 1/2 < s - n then n + 1
    else if n % 2 = 0 then n else n + 1
  (n' : ℚ) * step

/-- A finite IEEE-754 double is an exactly representable rational, and a
correctly rounded operation is the exact rational result rounded to the
binary64 grid.  `fl` is that rounding, with `none` for a result that
overflows to infinity (magnitude `≥ 2^1024` after rounding with unbounded
exponent — the IEEE overflow rule). -/
def fl (q : ℚ) : Option ℚ :=
  if q = 0 then some 0
  else
    let r := if 0 < q then roundPosDouble q else -roundPosDouble (-q)
    if (if 0 ≤ r then r else -r) < qpow2 1024 then some r else none

/-- CPython `int / int` true division (`long_true_divide`): the correctly
rounded double quotient, raising `OverflowError` (modelled by `none`) when
it overflows. -/
def pyIntDiv (a b : ℕ) : Option ℚ :=
  fl ((a : ℚ) / (b : ℚ))

/-- CPython `int + float`: the int is first converted to a double
(`PyLong_AsDouble`, correctly rounded, `OverflowError` when out of range),
then the IEEE double addition rounds the exact sum. -/
def pyIntAddFloat (a : ℕ) (x : ℚ) : Option ℚ := do
  let fa ← fl (a : ℚ)
  fl (fa + x)

/-- CPython `float + float`: IEEE double addition, correctly rounded. -/
def pyFloatAdd (x y : ℚ) : Option ℚ :=
  fl (x + y)

/-- The double value the source computes for
`years + months/12 + days/365` (left associated, as Python parses it), with
`none` for a raised `OverflowError`. -/
def pyAgeTotal (years months days : ℕ) : Option ℚ := do
  let m12 ← pyIntDiv months 12
  let d365 ← pyIntDiv days 365
  let t1 ← pyIntAddFloat years m12
  pyFloatAdd t1 d365

/-- Outcomes of `BaseStudyForm.clean`: the cleaned data, the
`ValidationError` raised by the age check, or the `OverflowError` CPython
raises when a conversion or quotient leaves double range. -/
inductive CleanOutcome
  | ok
  | validationError (msg : String)
  | overflowError
deriving DecidableEq

/-- Embedding of `BaseStudyForm.clean` (studies/forms.py, lines 22-33):
evaluate the two composite-age totals in IEEE-754 double precision and
raise `ValidationError('The maximum age must be greater than the minimum
age.')` when the minimum total compares strictly greater. -/
def BaseStudyForm.clean (minY minM minD maxY maxM maxD : ℕ) : CleanOutcome :=
  match pyAgeTotal minY minM minD, pyAgeTotal maxY maxM maxD with
  | some mn, some mx =>
    if mn > mx then
      CleanOutcome.validationError
        "The maximum age must be greater than the minimum age."
    else CleanOutcome.ok
  | _, _ => CleanOutcome.overflowError

/-- Shared shape of `StudyForm.clean_structure` and
`StudyBuildForm.clean_structure` (studies/forms.py, lines 76-82 and
108-114): both call `json.loads` on the submitted string and turn any parse
failure into a `ValidationError` with a fixed message.  The two methods
differ only in that message, so the shared shape is embedded once,
parameterised by the message and by the `json.loads` parser itself (a
Python-stdlib collaborator, modelled as an abstract partial parse function
`loads : String → Option J`). -/
def cleanStructureWith {J : Type} (loads : String → Option J) (msg : String)
    (structure_ : String) : Except String J :=
  match loads structure_ with
  | none => Except.error msg
  | some jsonData => Except.ok jsonData

/-- The `ValidationError` message of `StudyForm.clean_structure`. -/
def studyFormInvalidJsonMsg : String :=
  "Save failed due to invalid JSON! Please use valid JSON and save again. If you reload this page, all changes will be lost."

/-- The `ValidationError` message of `StudyBuildForm.clean_structure`. -/
def studyBuildFormInvalidJsonMsg : String :=
  "Invalid JSON"

/-- Embedding of `StudyForm.clean_structure`, specialised to its message. -/
def StudyForm.clean_structure {J : Type} (loads : String → Option J)
    (structure_ : String) : Except String J :=
  cleanStructureWith loads studyFormInvalidJsonMsg structure_

/-- Embedding of `StudyBuildForm.clean_structure`, specialised to its
message. -/
def StudyBuildForm.clean_structure {J : Type} (loads : String → Option J)
    (structure_ : String) : Except String J :=
  cleanStructureWith loads studyBuildFormInvalidJsonMsg structure_

/-! ## Claims about studies/forms.py -/

section

attribute [local semireducible] Rat.add Rat.mul Rat.inv Rat.sub

set_option maxRecDepth 100000 in
/-- Counterexample to C1 as stated: at min = (0 years, 12·2⁵³+13 months,
365 days) and max = (2⁵³ years, 25 months, 0 days) the exact rational
totals of the claim's formula are equal (both 2⁵³ + 25/12), yet the doubles
the code compares round to 9007199254740996.0 > 9007199254740994.0 and the
form raises the ValidationError — so "equal totals are accepted" is false
of the program. -/
theorem c1_exact_boundary_counterexample :
    ageTotal 0 (12 * 2 ^ 53 + 13) 365 = ageTotal (2 ^ 53) 25 0 ∧
    BaseStudyForm.clean 0 (12 * 2 ^ 53 + 13) 365 (2 ^ 53) 25 0 =
      CleanOutcome.validationError
        "The maximum age must be greater than the minimum age." := by
  constructor
  · norm_num [ageTotal]
  · decide

/-- C1 (amended): for inputs whose totals stay in double range, the
validator accepts iff the double evaluation of
`min_age_years + min_age_months/12 + min_age_days/365` is `≤` the double
evaluation of the max total, raising a ValidationError with the message
"The maximum age must be greater than the minimum age." exactly when the
min double total is strictly greater; equal double totals are accepted.
(The exact-rational version of the boundary clause is refuted by
`c1_exact_boundary_counterexample`.) -/
theorem c1_age_validator_float (minY minM minD maxY maxM maxD : ℕ)
    (mn mx : ℚ) (hmn : pyAgeTotal minY minM minD = some mn)
    (hmx : pyAgeTotal maxY maxM maxD = some mx) :
    (BaseStudyForm.clean minY minM minD maxY maxM maxD = CleanOutcome.ok ↔
      mn ≤ mx) ∧
    (BaseStudyForm.clean minY minM minD maxY maxM maxD =
        CleanOutcome.validationError
          "The maximum age must be greater than the minimum age." ↔
      mx < mn) ∧
    (mn = mx →
      BaseStudyForm.clean minY minM minD maxY maxM maxD =
        CleanOutcome.ok) := by
  have hdef : BaseStudyForm.clean minY minM minD maxY maxM maxD =
      if mx < mn then
        CleanOutcome.validationError
          "The maximum age must be greater than the minimum age."
      else CleanOutcome.ok := by
    unfold BaseStudyForm.clean
    rw [hmn, hmx]
  by_cases h : mx < mn
  · rw [hdef, if_pos h]
    refine ⟨?_, ?_, ?_⟩
    · simp [h, not_le.mpr h]
    · simp [h]
    · intro heq
      rw [heq] at h
      exact absurd h (lt_irrefl _)
  · rw [hdef, if_neg h]
    refine ⟨?_, ?_, ?_⟩
    · simp [not_lt.mp h]
    · simp [h]
    · intro _
      rfl

set_option maxRecDepth 100000 in
/-- Witness for the amended C1 at a concrete boundary input: one year and
twelve months both evaluate to the double 1.0, and the form accepts. -/
theorem c1_age_validator_float_witness :
    BaseStudyForm.clean 1 0 0 0 12 0 = CleanOutcome.ok :=
  (c1_age_validator_float 1 0 0 0 12 0 1 1 (by decide) (by decide)).2.2 rfl

end

/-! ## exp/templatetags/exp_extras.py -/

/-- Django's `QueryDict` (the type of `request.GET`): an ordered mapping from
string keys to lists of string values.  Keys are unique in an actual
`QueryDict`; the embedding keeps the entry order, which `urlencode`
observes. -/
abbrev QueryDict : Type := List (String × List String)

/-- Item lookup on a `QueryDict`: the value list stored under a key, if any
(the first entry wins, as in a dict, whose keys are unique anyway). -/
def qdLookup : QueryDict → String → Option (List String)
  | [], _ => none
  | p :: rest, k => if p.1 = k then some p.2 else qdLookup rest k

/-- Embedding of `QueryDict.__setitem__` (`updated["state"] = state`):
replaces the value
list of an existing key in place (keeping its position) with the singleton
`[v]`, or appends a new entry at the end. -/
def qdSetItem : QueryDict → String → String → QueryDict
  | [], k, v => [(k, [v])]
  | p :: rest, k, v =>
    if p.1 = k then (k, [v]) :: rest else p :: qdSetItem rest k v

/-- One `if kwargs.get("..."): updated["..."] = kwargs.get("...")` step of
`query_transform`.  An override value is an `Option String`: `none` models an
absent kwarg and `""` the falsy empty string, so the guard fires exactly for
`some s` with `s ≠ ""`. -/
def applyOverride (q : QueryDict) (k : String) (o : Option String) : QueryDict :=
  match o with
  | some s => if s = "" then q else qdSetItem q k s
  | none => q

/-- The effective value of an override: `some v` iff the Python guard
`if kwargs.get(k):` fires, in which case `v` is the assigned value. -/
def truthyVal : Option String → Option String
  | some s => if s = "" then none else some s
  | none => none

/-- The `updated` `QueryDict` built by `query_transform`
(exp/templatetags/exp_extras.py, lines 7-24): a copy of `request.GET` with
the `state`, `page`, `match` and `sort` overrides applied in that order. -/
def query_transform_updated (requestGET : QueryDict)
    (state page matchArg sortArg : Option String) : QueryDict :=
  applyOverride
    (applyOverride
      (applyOverride
        (applyOverride requestGET "state" state)
        "page" page)
      "match" matchArg)
    "sort" sortArg

/-- Is this byte kept verbatim by `urllib.parse.quote_plus`?
(ASCII letters, digits, and `_`, `.`, `-`, `~`.) -/
def isUrlSafeByte (b : ℕ) : Bool :=
  (65 ≤ b && b ≤ 90) || (97 ≤ b && b ≤ 122) || (48 ≤ b && b ≤ 57) ||
    b == 95 || b == 46 || b == 45 || b == 126

/-- Uppercase hexadecimal digit for a nibble. -/
def hexDigit (n : ℕ) : Char :=
  if n < 10 then Char.ofNat (48 + n) else Char.ofNat (55 + n)

/-- Action of `urllib.parse.quote_plus` on a single UTF-8 byte: space
becomes `+`,
safe bytes stay, everything else is percent-escaped in uppercase hex. -/
def quotePlusByte (b : ℕ) : String :=
  if b = 32 then "+"
  else if isUrlSafeByte b then String.mk [Char.ofNat b]
  else String.mk ['%', hexDigit (b / 16), hexDigit (b % 16)]

/-- Embedding of `urllib.parse.quote_plus`: UTF-8 encode, then escape byte
by byte. -/
def quotePlus (s : String) : String :=
  String.join ((s.toUTF8.toList.map (fun b => quotePlusByte b.toNat)))

/-- Embedding of `QueryDict.urlencode`: `key=value` pairs, both sides
quoted with
`quote_plus`, one pair per stored value, joined with `&` in entry order. -/
def qdUrlencode (q : QueryDict) : String :=
  String.intercalate "&"
    ((q.map (fun p => p.2.map (fun v => quotePlus p.1 ++ "=" ++ quotePlus v))).flatten)

/-- Embedding of `query_transform` (exp/templatetags/exp_extras.py,
lines 7-24): copy
`request.GET`, apply the four overrides, and return the percent-encoded
query string. -/
def query_transform (requestGET : QueryDict)
    (state page matchArg sortArg : Option String) : String :=
  qdUrlencode (query_transform_updated requestGET state page matchArg sortArg)

/-! ### QueryDict lemmas -/

theorem qdLookup_setItem_self (q : QueryDict) (k v : String) :
    qdLookup (qdSetItem q k v) k = some [v] := by
  induction q with
  | nil =>
    simp [qdSetItem, qdLookup]
  | cons p rest ih =>
    by_cases h : p.1 = k
    · simp [qdSetItem, h, qdLookup]
    · simpa [qdSetItem, h, qdLookup] using ih

theorem qdLookup_setItem_other (q : QueryDict) (k v k' : String)
    (h : k' ≠ k) : qdLookup (qdSetItem q k v) k' = qdLookup q k' := by
  have hkk : ¬k = k' := fun hh => h (Eq.symm hh)
  induction q with
  | nil =>
    simp [qdSetItem, qdLookup, hkk]
  | cons p rest ih =>
    by_cases hp : p.1 = k
    · simp [qdSetItem, hp, qdLookup, hkk]
    · by_cases hp' : p.1 = k'
      · simp [qdSetItem, hp, qdLookup, hp', h]
      · simpa [qdSetItem, hp, qdLookup, hp'] using ih

theorem qdSetItem_eq_of_lookup (q : QueryDict) (k v : String)
    (h : qdLookup q k = some [v]) : qdSetItem q k v = q := by
  induction q with
  | nil =>
    simp [qdLookup] at h
  | cons p rest ih =>
    by_cases hp : p.1 = k
    · have hval : p.2 = [v] := by
        simpa [qdLookup, hp] using h
      have hpeq : p = (k, [v]) := by
        cases p with
        | mk a b => simp_all
      simp [qdSetItem, hp, hpeq]
    · have hrest : qdLookup rest k = some [v] := by
        simpa [qdLookup, hp] using h
      simp [qdSetItem, hp, ih hrest]

theorem qdLookup_setItem_isSome (q : QueryDict) (k v k' : String)
    (h : (qdLookup q k').isSome) : (qdLookup (qdSetItem q k v) k').isSome := by
  by_cases hk : k' = k
  · subst hk
    simp [qdLookup_setItem_self]
  · rwa [qdLookup_setItem_other q k v k' hk]

/-! ### applyOverride lemmas -/

theorem applyOverride_of_falsy (q : QueryDict) (k : String) (o : Option String)
    (h : truthyVal o = none) : applyOverride q k o = q := by
  cases o with
  | none => rfl
  | some s =>
    by_cases hs : s = ""
    · simp [applyOverride, hs]
    · simp [truthyVal, hs] at h

theorem applyOverride_lookup_self (q : QueryDict) (k : String)
    (o : Option String) (v : String) (h : truthyVal o = some v) :
    qdLookup (applyOverride q k o) k = some [v] := by
  cases o with
  | none => simp [truthyVal] at h
  | some s =>
    by_cases hs : s = ""
    · simp [truthyVal, hs] at h
    · have hv : s = v := by simpa [truthyVal, hs] using h
      subst hv
      simp [applyOverride, hs, qdLookup_setItem_self]

theorem applyOverride_lookup_other (q : QueryDict) (k : String)
    (o : Option String) (k' : String) (h : k' ≠ k) :
    qdLookup (applyOverride q k o) k' = qdLookup q k' := by
  cases o with
  | none => rfl
  | some s =>
    by_cases hs : s = ""
    · simp [applyOverride, hs]
    · simp [applyOverride, hs, qdLookup_setItem_other q k s k' h]

theorem applyOverride_eq_of_lookup (q : QueryDict) (k : String)
    (o : Option String)
    (h : ∀ v, truthyVal o = some v → qdLookup q k = some [v]) :
    applyOverride q k o = q := by
  cases o with
  | none => rfl
  | some s =>
    by_cases hs : s = ""
    · simp [applyOverride, hs]
    · have hl : qdLookup q k = some [s] := h s (by simp [truthyVal, hs])
      simp [applyOverride, hs, qdSetItem_eq_of_lookup q k s hl]

theorem applyOverride_lookup_isSome (q : QueryDict) (k : String)
    (o : Option String) (k' : String) (h : (qdLookup q k').isSome) :
    (qdLookup (applyOverride q k o) k').isSome := by
  cases o with
  | none => exact h
  | some s =>
    by_cases hs : s = ""
    · simpa [applyOverride, hs] using h
    · simp only [applyOverride, hs, if_false]
      exact qdLookup_setItem_isSome q k s k' h

/-- The four override keys are pairwise distinct, so later overrides never
disturb the entry written by an earlier one. -/
theorem query_transform_updated_lookup_state (q : QueryDict)
    (s p m srt : Option String) (v : String) (h : truthyVal s = some v) :
    qdLookup (query_transform_updated q s p m srt) "state" = some [v] := by
  unfold query_transform_updated
  rw [applyOverride_lookup_other _ "sort" srt "state" (by decide)]
  rw [applyOverride_lookup_other _ "match" m "state" (by decide)]
  rw [applyOverride_lookup_other _ "page" p "state" (by decide)]
  exact applyOverride_lookup_self q "state" s v h

theorem query_transform_updated_lookup_page (q : QueryDict)
    (s p m srt : Option String) (v : String) (h : truthyVal p = some v) :
    qdLookup (query_transform_updated q s p m srt) "page" = some [v] := by
  unfold query_transform_updated
  rw [applyOverride_lookup_other _ "sort" srt "page" (by decide)]
  rw [applyOverride_lookup_other _ "match" m "page" (by decide)]
  exact applyOverride_lookup_self _ "page" p v h

theorem query_transform_updated_lookup_match (q : QueryDict)
    (s p m srt : Option String) (v : String) (h : truthyVal m = some v) :
    qdLookup (query_transform_updated q s p m srt) "match" = some [v] := by
  unfold query_transform_updated
  rw [applyOverride_lookup_other _ "sort" srt "match" (by decide)]
  exact applyOverride_lookup_self _ "match" m v h

theorem query_transform_updated_lookup_sort (q : QueryDict)
    (s p m srt : Option String) (v : String) (h : truthyVal srt = some v) :
    qdLookup (query_transform_updated q s p m srt) "sort" = some [v] := by
  unfold query_transform_updated
  exact applyOverride_lookup_self _ "sort" srt v h

theorem query_transform_updated_idem (q : QueryDict)
    (s p m srt : Option String) :
    query_transform_updated (query_transform_updated q s p m srt) s p m srt =
      query_transform_updated q s p m srt := by
  have h1 : applyOverride (query_transform_updated q s p m srt) "state" s =
      query_transform_updated q s p m srt :=
    applyOverride_eq_of_lookup _ "state" s
      (fun v hv => query_transform_updated_lookup_state q s p m srt v hv)
  have h2 : applyOverride (query_transform_updated q s p m srt) "page" p =
      query_transform_updated q s p m srt :=
    applyOverride_eq_of_lookup _ "page" p
      (fun v hv => query_transform_updated_lookup_page q s p m srt v hv)
  have h3 : applyOverride (query_transform_updated q s p m srt) "match" m =
      query_transform_updated q s p m srt :=
    applyOverride_eq_of_lookup _ "match" m
      (fun v hv => query_transform_updated_lookup_match q s p m srt v hv)
  have h4 : applyOverride (query_transform_updated q s p m srt) "sort" srt =
      query_transform_updated q s p m srt :=
    applyOverride_eq_of_lookup _ "sort" srt
      (fun v hv => query_transform_updated_lookup_sort q s p m srt v hv)
  show applyOverride (applyOverride (applyOverride (applyOverride
      (query_transform_updated q s p m srt) "state" s) "page" p) "match" m)
      "sort" srt = query_transform_updated q s p m srt
  rw [h1, h2, h3, h4]

/-! ## Claims about exp/templatetags/exp_extras.py -/

/-- C2: `query_transform` is idempotent in its overrides: for every existing
query-parameter set and every fixed assignment of the override arguments
`state`, `page`, `match`, `sort`, applying `query_transform` with those
overrides to the parameter set resulting from a first application with the
same overrides yields the same encoded query string as the single
application. -/
theorem c2_query_transform_idempotent (q : QueryDict)
    (s p m srt : Option String) :
    query_transform (query_transform_updated q s p m srt) s p m srt =
      query_transform q s p m srt := by
  unfold query_transform
  rw [query_transform_updated_idem]

/-- C3: `query_transform` replaces the value of an override key exactly when
that override is present and truthy, leaves it untouched when the override is
absent or falsy, passes every other key through unchanged, and never removes
a key that was present in the input. -/
theorem c3_query_transform_frame (q : QueryDict) (s p m srt : Option String) :
    (∀ k, k ≠ "state" → k ≠ "page" → k ≠ "match" → k ≠ "sort" →
      qdLookup (query_transform_updated q s p m srt) k = qdLookup q k) ∧
    (qdLookup (query_transform_updated q s p m srt) "state" =
      match truthyVal s with
      | some v => some [v]
      | none => qdLookup q "state") ∧
    (qdLookup (query_transform_updated q s p m srt) "page" =
      match truthyVal p with
      | some v => some [v]
      | none => qdLookup q "page") ∧
    (qdLookup (query_transform_updated q s p m srt) "match" =
      match truthyVal m with
      | some v => some [v]
      | none => qdLookup q "match") ∧
    (qdLookup (query_transform_updated q s p m srt) "sort" =
      match truthyVal srt with
      | some v => some [v]
      | none => qdLookup q "sort") ∧
    (∀ k, (qdLookup q k).isSome →
      (qdLookup (query_transform_updated q s p m srt) k).isSome) := by
  refine ⟨?_, ?_, ?_, ?_, ?_, ?_⟩
  · intro k hks hkp hkm hko
    unfold query_transform_updated
    rw [applyOverride_lookup_other _ "sort" srt k hko]
    rw [applyOverride_lookup_other _ "match" m k hkm]
    rw [applyOverride_lookup_other _ "page" p k hkp]
    exact applyOverride_lookup_other q "state" s k hks
  · cases hts : truthyVal s with
    | some v => exact query_transform_updated_lookup_state q s p m srt v hts
    | none =>
      unfold query_transform_updated
      rw [applyOverride_lookup_other _ "sort" srt "state" (by decide)]
      rw [applyOverride_lookup_other _ "match" m "state" (by decide)]
      rw [applyOverride_lookup_other _ "page" p "state" (by decide)]
      rw [applyOverride_of_falsy q "state" s hts]
  · cases htp : truthyVal p with
    | some v => exact query_transform_updated_lookup_page q s p m srt v htp
    | none =>
      unfold query_transform_updated
      rw [applyOverride_lookup_other _ "sort" srt "page" (by decide)]
      rw [applyOverride_lookup_other _ "match" m "page" (by decide)]
      rw [applyOverride_of_falsy _ "page" p htp]
      exact applyOverride_lookup_other q "state" s "page" (by decide)
  · cases htm : truthyVal m with
    | some v => exact query_transform_updated_lookup_match q s p m srt v htm
    | none =>
      unfold query_transform_updated
      rw [applyOverride_lookup_other _ "sort" srt "match" (by decide)]
      rw [applyOverride_of_falsy _ "match" m htm]
      rw [applyOverride_lookup_other _ "page" p "match" (by decide)]
      exact applyOverride_lookup_other q "state" s "match" (by decide)
  · cases hto : truthyVal srt with
    | some v => exact query_transform_updated_lookup_sort q s p m srt v hto
    | none =>
      unfold query_transform_updated
      rw [applyOverride_of_falsy _ "sort" srt hto]
      rw [applyOverride_lookup_other _ "match" m "sort" (by decide)]
      rw [applyOverride_lookup_other _ "page" p "sort" (by decide)]
      exact applyOverride_lookup_other q "state" s "sort" (by decide)
  · intro k hk
    unfold query_transform_updated
    exact applyOverride_lookup_isSome _ "sort" srt k
      (applyOverride_lookup_isSome _ "match" m k
        (applyOverride_lookup_isSome _ "page" p k
          (applyOverride_lookup_isSome q "state" s k hk)))

/-- Witness for C3 at a concrete input: existing parameters
`a=1&page=1&sort=asc`, overrides `page=2` (truthy), `match=""` (falsy),
`state` absent, `sort=desc` (truthy). -/
theorem c3_query_transform_frame_witness :
    (qdLookup (query_transform_updated [("a", ["1"]), ("page", ["1"]), ("sort", ["asc"])]
        none (some "2") (some "") (some "desc")) "a" =
      qdLookup [("a", ["1"]), ("page", ["1"]), ("sort", ["asc"])] "a") ∧
    (qdLookup (query_transform_updated [("a", ["1"]), ("page", ["1"]), ("sort", ["asc"])]
        none (some "2") (some "") (some "desc")) "a").isSome := by
  have h := c3_query_transform_frame [("a", ["1"]), ("page", ["1"]), ("sort", ["asc"])]
    none (some "2") (some "") (some "desc")
  refine ⟨h.1 "a" (by decide) (by decide) (by decide) (by decide), ?_⟩
  exact h.2.2.2.2.2 "a" (by decide)

/-! ## web/templatetags/web_extras.py -/

/- A breadcrumb child node is modelled by the string its `render(context)`
returns (rendering a template node is pure here, so the two calls the Python
code makes on the same node yield the same string). -/

/-- Python's `str.strip()` with no argument: remove leading and trailing
whitespace, implemented over the character list so that it evaluates by
kernel reduction. -/
def pyStrip (s : String) : String :=
  String.mk
    (((s.data.dropWhile Char.isWhitespace).reverse.dropWhile
        Char.isWhitespace).reverse)

/-- The removal loop of `BreadcrumbNode.render`:
`for node in self.nodelist: if not node.render(context).strip():
self.nodelist.remove(node)`.  CPython's list iterator advances an index while
`remove` shifts the remaining elements left, so the element immediately after
a removed node is never examined; template nodes are distinct objects, so
`remove` deletes exactly the node just fetched. -/
def removeEmptyNodes : List String → List String
  | [] => []
  | x :: rest =>
    if pyStrip x = "" then
      match rest with
      | [] => []
      | y :: rest' => y :: removeEmptyNodes rest'
    else x :: removeEmptyNodes rest

/-- Embedding of `BreadcrumbNode.pairwise`: `zip(a, a)` over one shared
iterator pairs
consecutive elements two at a time; a trailing unpaired element is dropped. -/
def pairwise {α : Type} : List α → List (α × α)
  | a :: b :: rest => (a, b) :: pairwise rest
  | _ => []

/-- The `<li>` fragment built for one `(href, label)` pair (the three
strings appended per pair, joined later by `"".join`). -/
def breadcrumbItem (ab : String × String) : String :=
  "<li class=\"breadcrumb-item\">" ++
    "<a href=\"" ++ ab.1 ++ "\">" ++ ab.2 ++ "</a>" ++ "</li>"

/-- Embedding of `BreadcrumbNode.render` (web/templatetags/web_extras.py,
lines 279-305):
empty node list short-circuits to `""`; otherwise blank nodes are removed by
the mutating loop, the last remaining node is popped as the current page
(`none` models the `IndexError` that `pop()` raises on an empty list), the
remaining nodes are paired as links, and the pieces are joined. -/
def BreadcrumbNode.render (nodelist : List String) : Option String :=
  if nodelist = [] then some ""
  else
    let cleaned := removeEmptyNodes nodelist
    match cleaned.getLast? with
    | none => none
    | some lastNode =>
      some (String.join
        (["<nav aria-label=\"breadcrumb\" class=\"my-2 breadcrumb\">",
          "<ol class=\"breadcrumb\">"] ++
         (pairwise cleaned.dropLast).map breadcrumbItem ++
         ["<li class=\"breadcrumb-item active\" aria-current=\"page\">" ++
            lastNode ++ "</li>",
          "</ol></nav>"]))

/-! ### Breadcrumb lemmas -/

theorem removeEmptyNodes_eq_self (l : List String)
    (hnb : ∀ x ∈ l, pyStrip x ≠ "") : removeEmptyNodes l = l := by
  induction l with
  | nil => rfl
  | cons x rest ih =>
    have hx := hnb x (List.mem_cons_self x rest)
    cases rest with
    | nil =>
      have hstep : removeEmptyNodes [x] =
          if pyStrip x = "" then [] else [x] := rfl
      rw [hstep, if_neg hx]
    | cons y rest' =>
      have hstep : removeEmptyNodes (x :: y :: rest') =
          if pyStrip x = "" then y :: removeEmptyNodes rest'
          else x :: removeEmptyNodes (y :: rest') := rfl
      rw [hstep, if_neg hx,
        ih (fun z hz => hnb z (List.mem_cons_of_mem x hz))]

theorem pairwise_of_odd {α : Type} (l : List α) (h : l.length % 2 = 1) :
    pairwise l = pairwise l.dropLast := by
  match l with
  | [] => simp at h
  | [a] => simp [pairwise]
  | a :: b :: rest =>
    match rest with
    | [] => simp at h
    | r :: rs =>
      have hlen : (r :: rs).length % 2 = 1 := by
        simp at h ⊢
        omega
      rw [show (a :: b :: r :: rs).dropLast = a :: b :: (r :: rs).dropLast by
        simp]
      rw [pairwise, pairwise]
      rw [pairwise_of_odd (r :: rs) hlen]
termination_by l.length

theorem breadcrumb_render_nonblank (l : List String) (lastNode : String)
    (hl : l.getLast? = some lastNode) (hnb : ∀ x ∈ l, pyStrip x ≠ "") :
    BreadcrumbNode.render l =
      some (String.join
        (["<nav aria-label=\"breadcrumb\" class=\"my-2 breadcrumb\">",
          "<ol class=\"breadcrumb\">"] ++
         (pairwise l.dropLast).map breadcrumbItem ++
         ["<li class=\"breadcrumb-item active\" aria-current=\"page\">" ++
            lastNode ++ "</li>",
          "</ol></nav>"])) := by
  have hne : l ≠ [] := by
    intro hnil
    rw [hnil] at hl
    simp at hl
  unfold BreadcrumbNode.render
  rw [if_neg hne]
  simp only [removeEmptyNodes_eq_self l hnb, hl]

/-! ### Claims about BreadcrumbNode -/

/-- C5: for non-blank breadcrumb child nodes, `BreadcrumbNode.render` takes
the last node as the unlinked current item (marked `aria-current="page"`) and
pairs the preceding nodes two-at-a-time as `(href, label)` linked items; with
an odd number of preceding nodes the trailing unpaired node is silently
dropped, so rendering is unchanged when it is deleted from the input. -/
theorem c5_breadcrumb_pairing (l : List String) (lastNode : String)
    (hl : l.getLast? = some lastNode) (hnb : ∀ x ∈ l, pyStrip x ≠ "") :
    (BreadcrumbNode.render l =
      some (String.join
        (["<nav aria-label=\"breadcrumb\" class=\"my-2 breadcrumb\">",
          "<ol class=\"breadcrumb\">"] ++
         (pairwise l.dropLast).map breadcrumbItem ++
         ["<li class=\"breadcrumb-item active\" aria-current=\"page\">" ++
            lastNode ++ "</li>",
          "</ol></nav>"]))) ∧
    (l.dropLast.length % 2 = 1 →
      BreadcrumbNode.render l =
        BreadcrumbNode.render (l.dropLast.dropLast ++ [lastNode])) := by
  refine ⟨breadcrumb_render_nonblank l lastNode hl hnb, ?_⟩
  intro hodd
  have hlast_mem : lastNode ∈ l := by
    obtain ⟨hne, hx⟩ := List.mem_getLast?_eq_getLast (l := l) (x := lastNode)
      (by simp [hl])
    exact hx ▸ List.getLast_mem hne
  have hsub : ∀ x ∈ l.dropLast.dropLast ++ [lastNode], pyStrip x ≠ "" := by
    intro x hx
    rcases List.mem_append.mp hx with hx' | hx'
    · exact hnb x (List.dropLast_subset _ (List.dropLast_subset _ hx'))
    · have hxl : x = lastNode := by simpa using hx'
      exact hxl ▸ hnb lastNode hlast_mem
  have hl' : (l.dropLast.dropLast ++ [lastNode]).getLast? = some lastNode := by
    simp
  rw [breadcrumb_render_nonblank l lastNode hl hnb,
    breadcrumb_render_nonblank _ lastNode hl' hsub]
  rw [List.dropLast_concat]
  rw [pairwise_of_odd l.dropLast hodd]

set_option maxRecDepth 8192 in
/-- Witness for C5: the five nodes `"/a","A","/b","B","Current"` give two
linked items plus the current item, and with an odd preceding count the node
`"X"` in `"/a","A","X","Current"` is silently dropped. -/
theorem c5_breadcrumb_pairing_witness :
    BreadcrumbNode.render ["/a", "A", "/b", "B", "Current"] =
      some ("<nav aria-label=\"breadcrumb\" class=\"my-2 breadcrumb\"><ol class=\"breadcrumb\"><li class=\"breadcrumb-item\"><a href=\"/a\">A</a></li><li class=\"breadcrumb-item\"><a href=\"/b\">B</a></li><li class=\"breadcrumb-item active\" aria-current=\"page\">Current</li></ol></nav>") ∧
    BreadcrumbNode.render ["/a", "A", "X", "Current"] =
      BreadcrumbNode.render ["/a", "A", "Current"] := by
  constructor
  · rw [(c5_breadcrumb_pairing ["/a", "A", "/b", "B", "Current"] "Current"
      rfl (by decide)).1]
    rfl
  · have h := (c5_breadcrumb_pairing ["/a", "A", "X", "Current"] "Current"
      rfl (by decide)).2 (by decide)
    exact h

/-- C4 (code bug): the removal loop mutates the node list while iterating,
so the node directly after a removed blank node is never examined; with two
adjacent blank nodes the second survives, and the rendered output differs
from first discarding all blank-rendering nodes.  At the failing input the
surviving blank becomes an href and a label is silently consumed. -/
theorem c4_breadcrumb_blank_removal_divergence :
    BreadcrumbNode.render ["", "", "a", "b", "c"] =
      some ("<nav aria-label=\"breadcrumb\" class=\"my-2 breadcrumb\"><ol class=\"breadcrumb\"><li class=\"breadcrumb-item\"><a href=\"\">a</a></li><li class=\"breadcrumb-item active\" aria-current=\"page\">c</li></ol></nav>") ∧
    BreadcrumbNode.render (["", "", "a", "b", "c"].filter (fun s => pyStrip s != "")) =
      some ("<nav aria-label=\"breadcrumb\" class=\"my-2 breadcrumb\"><ol class=\"breadcrumb\"><li class=\"breadcrumb-item\"><a href=\"a\">b</a></li><li class=\"breadcrumb-item active\" aria-current=\"page\">c</li></ol></nav>") ∧
    BreadcrumbNode.render ["", "", "a", "b", "c"] ≠
      BreadcrumbNode.render (["", "", "a", "b", "c"].filter (fun s => pyStrip s != "")) := by
  refine ⟨rfl, rfl, ?_⟩
  decide

/-- C10: `BreadcrumbNode.render` is not total over non-empty node lists: a
single blank node empties the list inside the removal loop and the
subsequent `pop()` raises (modelled by `none`). -/
theorem c10_breadcrumb_render_raises_on_all_blank :
    ([""] : List String) ≠ [] ∧ BreadcrumbNode.render [""] = none := by
  decide

/-! ### active_nav and nav_link -/

/-- Embedding of `active_nav` (web/templatetags/web_extras.py, lines
23-33): a navigation
target is the active one iff the current request path equals the target URL
string (`request.path == url`, plain string equality). -/
def active_nav (requestPath url : String) : Bool :=
  requestPath = url

/-- The default `html_classes` used by `nav_link` when the caller passes
none. -/
def navLinkDefaultClasses : List String :=
  ["nav-link", "navbar-link", "link-secondary", "text-center", "px-3"]

/-- The local variables `html_classes`, `aria_current` and `url` as they
stand in `nav_link` (web/templatetags/web_extras.py, lines 95-144) just
before the anchor string is assembled. -/
structure NavLinkParts where
  htmlClasses : List String
  ariaCurrent : String
  url : String

/-- The variable-computation phase of `nav_link`: default classes when none
are given, URL reversal (`reverse` is a Django collaborator, passed in as
`reverseFn`), the `active_nav` check extending the classes and setting
`aria_current`, and the optional (truthy) query string appended after the
check. -/
def nav_link_parts (requestPath urlName : String)
    (htmlClasses : Option (List String)) (queryString : Option String)
    (reverseUrl : Bool) (reverseFn : String → String) : NavLinkParts :=
  let classes :=
    match htmlClasses with
    | none => navLinkDefaultClasses
    | some cs => cs
  let url := if reverseUrl then reverseFn urlName else urlName
  let classes' :=
    if active_nav requestPath url then classes ++ ["active", "btn-secondary"]
    else classes
  let ariaCurrent :=
    if active_nav requestPath url then " aria-current=\"page\"" else ""
  let url' :=
    match queryString with
    | some qs => if qs = "" then url else url ++ qs
    | none => url
  ⟨classes', ariaCurrent, url'⟩

/-- The assembly phase of `nav_link`: the `<a>` tag (with `gettext` on the
text modelled as the identity) and the optional `<li>` wrapper. -/
def nav_link (requestPath urlName text : String)
    (htmlClasses : Option (List String)) (queryString : Option String)
    (isList : Bool) (reverseUrl : Bool) (reverseFn : String → String) :
    String :=
  let parts := nav_link_parts requestPath urlName htmlClasses queryString
    reverseUrl reverseFn
  let navATag := "<a class=\"" ++ String.intercalate " " parts.htmlClasses ++
    "\"" ++ parts.ariaCurrent ++ " href=\"" ++ parts.url ++ "\">" ++ text ++
    "</a>"
  if isList then "<li class=\"nav-item\">" ++ navATag ++ "</li>" else navATag

/-- C6: `nav_link` marks the anchor active (appending the `active` class and
setting `aria-current="page"`) iff the resolved target URL is exactly the
current request path, with no normalization; when the strings differ in any
way the classes are left as given and the `aria-current` marker is empty. -/
theorem c6_nav_link_active_iff (requestPath urlName : String)
    (htmlClasses : Option (List String)) (queryString : Option String)
    (reverseUrl : Bool) (reverseFn : String → String) :
    ((nav_link_parts requestPath urlName htmlClasses queryString reverseUrl
        reverseFn).ariaCurrent = " aria-current=\"page\"" ↔
      requestPath = (if reverseUrl then reverseFn urlName else urlName)) ∧
    (requestPath = (if reverseUrl then reverseFn urlName else urlName) →
      "active" ∈ (nav_link_parts requestPath urlName htmlClasses queryString
        reverseUrl reverseFn).htmlClasses) ∧
    (requestPath ≠ (if reverseUrl then reverseFn urlName else urlName) →
      (nav_link_parts requestPath urlName htmlClasses queryString reverseUrl
          reverseFn).ariaCurrent = "" ∧
      (nav_link_parts requestPath urlName htmlClasses queryString reverseUrl
          reverseFn).htmlClasses =
        (match htmlClasses with
         | none => navLinkDefaultClasses
         | some cs => cs)) ∧
    (active_nav requestPath
        (if reverseUrl then reverseFn urlName else urlName) = true ↔
      requestPath = (if reverseUrl then reverseFn urlName else urlName)) := by
  by_cases h : requestPath = (if reverseUrl then reverseFn urlName else urlName)
  · refine ⟨?_, ?_, ?_, ?_⟩
    · simp [nav_link_parts, active_nav, h]
    · intro _
      simp [nav_link_parts, active_nav, h]
    · intro hne
      exact absurd h hne
    · simp [active_nav, h]
  · refine ⟨?_, ?_, ?_, ?_⟩
    · constructor
      · intro hc
        exact absurd hc (by simp [nav_link_parts, active_nav, h])
      · intro hc
        exact absurd hc h
    · intro hc
      exact absurd hc h
    · intro _
      constructor
      · simp [nav_link_parts, active_nav, h]
      · simp [nav_link_parts, active_nav, h]
    · simp [active_nav, h]

/-- Witness for C6: on path `/studies/` the link to `/studies/` is marked
active while the link to `/studies` (no trailing slash) is not — exact
string equality, no normalization. -/
theorem c6_nav_link_active_iff_witness :
    "active" ∈ (nav_link_parts "/studies/" "/studies/" none none false
      (fun u => u)).htmlClasses ∧
    (nav_link_parts "/studies/" "/studies" none none false
        (fun u => u)).ariaCurrent = "" ∧
    (nav_link_parts "/studies/" "/studies" none none false
        (fun u => u)).htmlClasses = navLinkDefaultClasses := by
  have h1 := (c6_nav_link_active_iff "/studies/" "/studies/" none none false
    (fun u => u)).2.1 (by decide)
  have h2 := (c6_nav_link_active_iff "/studies/" "/studies" none none false
    (fun u => u)).2.2.1 (by decide)
  exact ⟨h1, h2.1, h2.2⟩

/-! ### format and google_tag_manager -/

/-- A `[ \t]` character, as in the two margin regexes of `textwrap`. -/
def isIndentChar (c : Char) : Bool :=
  c == ' ' || c == '\t'

/-- Does a line match `_whitespace_only_re` (`^[ \t]+$`)? -/
def isWsOnlyLine (l : List Char) : Bool :=
  !l.isEmpty && l.all isIndentChar

/-- Does a line contribute an indent to `_leading_whitespace_re`
(`(^[ \t]*)(?:[^ \t\n])`), i.e. does it contain a non-blank character? -/
def lineHasContent (l : List Char) : Bool :=
  l.any (fun c => !isIndentChar c)

/-- The leading `[ \t]*` run of a line. -/
def leadingIndent (l : List Char) : List Char :=
  l.takeWhile isIndentChar

/-- The margin-merging step of `textwrap.dedent`'s loop over indents: the
`startswith` cases and the truncate-at-first-mismatch loop amount to the
longest common prefix. -/
def commonIndent : List Char → List Char → List Char
  | x :: xs, y :: ys => if x = y then x :: commonIndent xs ys else []
  | _, _ => []

/-- The margin `textwrap.dedent` computes: the common prefix of the leading
whitespace of all lines that have content. -/
def dedentMargin (lines : List (List Char)) : List Char :=
  match (lines.filter lineHasContent).map leadingIndent with
  | [] => []
  | i :: is => is.foldl commonIndent i

/-- Embedding of `textwrap.dedent`, working line-wise (the caller splits
the text on
`'\n'` and re-joins afterwards): whitespace-only lines are normalized to
empty, the margin is computed, and — when it is non-empty — `(?m)^margin` is
stripped from every line that starts with it. -/
def dedentLines (lines : List (List Char)) : List (List Char) :=
  let blanked := lines.map (fun l => if isWsOnlyLine l then [] else l)
  let margin := dedentMargin blanked
  if margin.isEmpty then blanked
  else blanked.map (fun l =>
    if margin.isPrefixOf l then l.drop margin.length else l)

/-- Re-join the lines of a text (the inverse of splitting on `'\n'`). -/
def joinLines : List (List Char) → List Char
  | [] => []
  | [l] => l
  | l :: rest => l ++ '\n' :: joinLines rest

/-- Embedding of `format` (web/templatetags/web_extras.py, lines 16-20):
when
`GOOGLE_TAG_MANAGER_ID` is truthy return `mark_safe(textwrap.dedent(text))`,
otherwise return `""`.  The setting is passed explicitly (with `""`
modelling an absent or falsy value), the text is represented by its list of
lines, and `mark_safe` is the identity on the underlying string. -/
def format (googleTagManagerId : String) (textLines : List (List Char)) :
    String :=
  if googleTagManagerId ≠ "" then String.mk (joinLines (dedentLines textLines))
  else ""

/-- The f-string body of `google_tag_manager` (web/templatetags/
web_extras.py, lines 79-92) as its list of lines; `\x7b`/`\x7d` are the
literal braces that Python's `{{`/`}}` escapes produce and `\x27` is a
literal apostrophe. -/
def gtmLines (gtmId : String) : List (List Char) :=
  [[],
   "    <!-- Google tag (gtag.js) - Google Analytics -->".data,
   ("    <script async src=\"https://www.googletagmanager.com/gtag/js?id=" ++
     gtmId ++ "\"></script>").data,
   "    <script>".data,
   "        window.dataLayer = window.dataLayer || [];".data,
   "        function gtag()\x7bdataLayer.push(arguments);\x7d".data,
   "        gtag(\x27js\x27, new Date());".data,
   ("        gtag(\x27config\x27, \x27" ++ gtmId ++ "\x27);").data,
   "    </script>".data,
   "    ".data]

/-- Embedding of `google_tag_manager` (web/templatetags/web_extras.py,
lines 79-92). -/
def google_tag_manager (gtmId : String) : String :=
  format gtmId (gtmLines gtmId)

set_option maxHeartbeats 2000000 in
set_option maxRecDepth 16384 in
/-- C9: with a falsy (absent) `GOOGLE_TAG_MANAGER_ID` the tag returns the
empty string rather than raising; with a truthy one it returns a non-empty
HTML snippet embedding that ID (the dedented script block, in which the ID
occurs twice). -/
theorem c9_google_tag_manager (gtmId : String) :
    (gtmId = "" → google_tag_manager gtmId = "") ∧
    (gtmId ≠ "" →
      google_tag_manager gtmId =
        String.mk
          ('\n' ::
            ("<!-- Google tag (gtag.js) - Google Analytics -->".data ++ '\n' ::
              ("<script async src=\"https://www.googletagmanager.com/gtag/js?id=".data ++
                ((gtmId.data ++ "\"></script>".data) ++ '\n' ::
                  ("<script>".data ++ '\n' ::
                    ("    window.dataLayer = window.dataLayer || [];".data ++ '\n' ::
                      ("    function gtag()\x7bdataLayer.push(arguments);\x7d".data ++ '\n' ::
                        ("    gtag(\x27js\x27, new Date());".data ++ '\n' ::
                          ("    gtag(\x27config\x27, \x27".data ++
                            ((gtmId.data ++ "\x27);".data) ++ '\n' ::
                              ("</script>".data ++ '\n' :: ([])))))))))))) ∧
      google_tag_manager gtmId ≠ "") := by
  constructor
  · intro h
    simp [google_tag_manager, format, h]
  · intro h
    have hEq : google_tag_manager gtmId =
        String.mk
          ('\n' ::
            ("<!-- Google tag (gtag.js) - Google Analytics -->".data ++ '\n' ::
              ("<script async src=\"https://www.googletagmanager.com/gtag/js?id=".data ++
                ((gtmId.data ++ "\"></script>".data) ++ '\n' ::
                  ("<script>".data ++ '\n' ::
                    ("    window.dataLayer = window.dataLayer || [];".data ++ '\n' ::
                      ("    function gtag()\x7bdataLayer.push(arguments);\x7d".data ++ '\n' ::
                        ("    gtag(\x27js\x27, new Date());".data ++ '\n' ::
                          ("    gtag(\x27config\x27, \x27".data ++
                            ((gtmId.data ++ "\x27);".data) ++ '\n' ::
                              ("</script>".data ++ '\n' :: ([])))))))))))) := by
      unfold google_tag_manager format
      rw [if_pos h]
      rfl
    refine ⟨hEq, ?_⟩
    rw [hEq]
    intro hcontra
    exact List.noConfusion (congrArg String.data hcontra)

/-- Witness for C9: absent ID gives the empty string; the concrete ID
`GTM-ABC123` gives non-empty output. -/
theorem c9_google_tag_manager_witness :
    google_tag_manager "" = "" ∧ google_tag_manager "GTM-ABC123" ≠ "" := by
  constructor
  · exact (c9_google_tag_manager "").1 rfl
  · exact ((c9_google_tag_manager "GTM-ABC123").2 (by decide)).2

/-! ## studies/migrations/0093_remove_studytype_configuration.py -/

/-- One entry of the `NAMES` dict: the old and new display-name strings. -/
structure NamePair where
  old : String
  new : String

/-- The `NAMES["external"]` entry. -/
def NAMES_external : NamePair :=
  ⟨"External",
   "External Study (Choose this if you are posting a study link rather using an experiment builder)"⟩

/-- The `NAMES["efp"]` entry. -/
def NAMES_efp : NamePair :=
  ⟨"Ember Frame Player (default)",
   "Lookit/Ember Frame Player (Default experiment builder)"⟩

/-- One `objects.get(name=a)` / `row.name = b` / `row.save()` block of
`study_type_names`: the catalog is the list of `StudyType` display names
(row identity by position); `objects.get` succeeds iff exactly one row
matches (raising `DoesNotExist` or `MultipleObjectsReturned` otherwise,
modelled by `none`), and saving rewrites that unique matching row — with a
unique match, rewriting the matching row is rewriting every matching row. -/
def renameOne (db : List String) (a b : String) : Option (List String) :=
  if db.count a = 1 then
    some (db.map (fun n => if n = a then b else n))
  else none

/-- The two consecutive rename blocks of `study_type_names` (migration 0093,
lines 17-28): rename the EFP row and save it, then look up the External row
in the updated catalog and rename it. -/
def renamePair (db : List String) (ea eb xa xb : String) :
    Option (List String) :=
  match renameOne db ea eb with
  | none => none
  | some db1 => renameOne db1 xa xb

/-- Embedding of `study_type_names` (migration 0093, lines 17-28);
`from_key`/`to_key`
index the `NAMES` entries and are modelled as selectors on `NamePair`. -/
def study_type_names (db : List String) (fromKey toKey : NamePair → String) :
    Option (List String) :=
  renamePair db (fromKey NAMES_efp) (toKey NAMES_efp)
    (fromKey NAMES_external) (toKey NAMES_external)

/-- Embedding of `update_study_type_names`:
`study_type_names(apps, "old", "new")`. -/
def update_study_type_names (db : List String) : Option (List String) :=
  study_type_names db NamePair.old NamePair.new

/-- Embedding of `revert_study_type_names`:
`study_type_names(apps, "new", "old")`. -/
def revert_study_type_names (db : List String) : Option (List String) :=
  study_type_names db NamePair.new NamePair.old

/-! ### Rename lemmas -/

theorem count_map_rename_other (db : List String) (a b x : String)
    (hxa : x ≠ a) (hxb : x ≠ b) :
    (db.map (fun n => if n = a then b else n)).count x = db.count x := by
  induction db with
  | nil => rfl
  | cons y rest ih =>
    rw [List.map_cons, List.count_cons, List.count_cons, ih]
    congr 1
    by_cases hy : y = a
    · rw [if_pos hy]
      have hbx : (b == x) = false := beq_eq_false_iff_ne.mpr (Ne.symm hxb)
      have hyx : (y == x) = false := by
        rw [hy]
        exact beq_eq_false_iff_ne.mpr (Ne.symm hxa)
      rw [hbx, hyx]
    · rw [if_neg hy]

theorem count_map_rename_to (db : List String) (a b : String) (hab : a ≠ b) :
    (db.map (fun n => if n = a then b else n)).count b =
      db.count a + db.count b := by
  induction db with
  | nil => rfl
  | cons y rest ih =>
    by_cases hy : y = a
    · subst hy
      simp only [List.map_cons, if_pos rfl, List.count_cons, ih,
        beq_self_eq_true, if_true]
      have h2 : (y == b) = false := beq_eq_false_iff_ne.mpr hab
      rw [h2]
      simp
      omega
    · simp only [List.map_cons, if_neg hy, List.count_cons, ih]
      have h2 : (y == a) = false := beq_eq_false_iff_ne.mpr hy
      rw [h2]
      simp
      omega

theorem map_rename_roundtrip (db : List String) (a b : String) (hab : a ≠ b)
    (hb : db.count b = 0) :
    ((db.map (fun n => if n = a then b else n)).map
      (fun n => if n = b then a else n)) = db := by
  induction db with
  | nil => rfl
  | cons y rest ih =>
    have hyb : y ≠ b := by
      intro hyb
      subst hyb
      simp [List.count_cons] at hb
    have hrest : rest.count b = 0 := by
      simp only [List.count_cons] at hb
      omega
    by_cases hy : y = a
    · subst hy
      simp [ih hrest]
    · rw [List.map_cons, if_neg hy, List.map_cons, if_neg hyb, ih hrest]

theorem renamePair_roundtrip (db : List String) (eo en xo xn : String)
    (heo_en : eo ≠ en) (hxo_xn : xo ≠ xn) (heo_xo : eo ≠ xo)
    (heo_xn : eo ≠ xn) (hen_xo : en ≠ xo) (hen_xn : en ≠ xn)
    (c1 : db.count eo = 1) (c2 : db.count xo = 1)
    (c3 : db.count en = 0) (c4 : db.count xn = 0) :
    ∃ db2, renamePair db eo en xo xn = some db2 ∧
      db2 = db.map (fun n => if n = eo then en else if n = xo then xn else n) ∧
      renamePair db2 en eo xn xo = some db := by
  have h1 : renameOne db eo en =
      some (db.map (fun n => if n = eo then en else n)) := by
    simp [renameOne, c1]
  have hc2' : (db.map (fun n => if n = eo then en else n)).count xo = 1 := by
    rw [count_map_rename_other db eo en xo (Ne.symm heo_xo) (Ne.symm hen_xo)]
    exact c2
  have h2 : renameOne (db.map (fun n => if n = eo then en else n)) xo xn =
      some ((db.map (fun n => if n = eo then en else n)).map
        (fun n => if n = xo then xn else n)) := by
    simp [renameOne, hc2']
  refine ⟨(db.map (fun n => if n = eo then en else n)).map
    (fun n => if n = xo then xn else n), ?_, ?_, ?_⟩
  · simp only [renamePair, h1, h2]
  · rw [List.map_map]
    apply List.map_congr_left
    intro n _
    simp only [Function.comp_apply]
    by_cases hn : n = eo
    · rw [if_pos hn, if_pos hn, if_neg hen_xo]
    · rw [if_neg hn, if_neg hn]
  · have hc_en : ((db.map (fun n => if n = eo then en else n)).map
        (fun n => if n = xo then xn else n)).count en = 1 := by
      have e1 := count_map_rename_other
        (db.map (fun n => if n = eo then en else n)) xo xn en hen_xo hen_xn
      have e2 := count_map_rename_to db eo en heo_en
      rw [e1, e2, c1, c3]
    have h3 : renameOne ((db.map (fun n => if n = eo then en else n)).map
        (fun n => if n = xo then xn else n)) en eo =
        some (((db.map (fun n => if n = eo then en else n)).map
          (fun n => if n = xo then xn else n)).map
            (fun n => if n = en then eo else n)) := by
      unfold renameOne
      rw [if_pos hc_en]
    have hdb3 : (((db.map (fun n => if n = eo then en else n)).map
        (fun n => if n = xo then xn else n)).map
          (fun n => if n = en then eo else n)) =
        db.map (fun n => if n = xo then xn else n) := by
      rw [List.map_map, List.map_map]
      apply List.map_congr_left
      intro n hn
      have hnen : n ≠ en := by
        intro he
        rw [he] at hn
        exact absurd hn (List.count_eq_zero.mp c3)
      simp only [Function.comp_apply]
      by_cases h1' : n = eo
      · subst h1'
        simp [hen_xo, heo_xo]
      · by_cases h2' : n = xo
        · subst h2'
          simp [h1', Ne.symm hen_xn]
        · simp [h1', h2', hnen]
    have hc_xn : (db.map (fun n => if n = xo then xn else n)).count xn = 1 := by
      rw [count_map_rename_to db xo xn hxo_xn, c2, c4]
    have h4 : renameOne (db.map (fun n => if n = xo then xn else n)) xn xo =
        some ((db.map (fun n => if n = xo then xn else n)).map
          (fun n => if n = xn then xo else n)) := by
      unfold renameOne
      rw [if_pos hc_xn]
    have hext : (db.map (fun n => if n = xo then xn else n)).map
        (fun n => if n = xn then xo else n) = db :=
      map_rename_roundtrip db xo xn hxo_xn c4
    simp only [renamePair, h3, hdb3, h4, hext]

/-! ### Claim about migration 0093 -/

/-- C8: the display-name rename migration is reversible both ways: from a
catalog with unique rows carrying the two old names (and no rows already
carrying the new names), the forward rename succeeds, renames exactly those
two rows (every other row is untouched), and the reverse rename restores the
original catalog; symmetrically from a catalog carrying the new names. -/
theorem c8_study_type_rename_reversible (db : List String) :
    (db.count NAMES_efp.old = 1 → db.count NAMES_external.old = 1 →
     db.count NAMES_efp.new = 0 → db.count NAMES_external.new = 0 →
      ∃ db2, update_study_type_names db = some db2 ∧
        db2 = db.map (fun n =>
          if n = NAMES_efp.old then NAMES_efp.new
          else if n = NAMES_external.old then NAMES_external.new
          else n) ∧
        revert_study_type_names db2 = some db) ∧
    (db.count NAMES_efp.new = 1 → db.count NAMES_external.new = 1 →
     db.count NAMES_efp.old = 0 → db.count NAMES_external.old = 0 →
      ∃ db2, revert_study_type_names db = some db2 ∧
        db2 = db.map (fun n =>
          if n = NAMES_efp.new then NAMES_efp.old
          else if n = NAMES_external.new then NAMES_external.old
          else n) ∧
        update_study_type_names db2 = some db) := by
  constructor
  · intro h1 h2 h3 h4
    exact renamePair_roundtrip db NAMES_efp.old NAMES_efp.new
      NAMES_external.old NAMES_external.new (by decide) (by decide)
      (by decide) (by decide) (by decide) (by decide) h1 h2 h3 h4
  · intro h1 h2 h3 h4
    exact renamePair_roundtrip db NAMES_efp.new NAMES_efp.old
      NAMES_external.new NAMES_external.old (by decide) (by decide)
      (by decide) (by decide) (by decide) (by decide) h1 h2 h3 h4

/-- Witness for C8 on a concrete three-row catalog: the forward migration
renames the two fixed entries, leaves the third row alone, and the reverse
migration restores the original names. -/
theorem c8_study_type_rename_reversible_witness :
    update_study_type_names
        ["Ember Frame Player (default)", "External", "Other study type"] =
      some ["Lookit/Ember Frame Player (Default experiment builder)",
        "External Study (Choose this if you are posting a study link rather using an experiment builder)",
        "Other study type"] ∧
    revert_study_type_names
        ["Lookit/Ember Frame Player (Default experiment builder)",
         "External Study (Choose this if you are posting a study link rather using an experiment builder)",
         "Other study type"] =
      some ["Ember Frame Player (default)", "External", "Other study type"] := by
  obtain ⟨db2, hup, hmap, hrev⟩ :=
    (c8_study_type_rename_reversible
      ["Ember Frame Player (default)", "External", "Other study type"]).1
      (by decide) (by decide) (by decide) (by decide)
  have hdb2 : db2 = ["Lookit/Ember Frame Player (Default experiment builder)",
      "External Study (Choose this if you are posting a study link rather using an experiment builder)",
      "Other study type"] := by
    rw [hmap]
    rfl
  rw [hdb2] at hup hrev
  exact ⟨hup, hrev⟩

/-! ## Claim C7 about clean_structure -/

/-- C7: for every submitted string on which `json.loads` fails, both
`clean_structure` methods raise a `ValidationError` carrying their fixed
message (so the form is invalid and nothing is persisted); for every string
`json.loads` parses, they return the parsed JSON value without error. -/
theorem c7_clean_structure {J : Type} (loads : String → Option J)
    (s : String) :
    (loads s = none →
      StudyForm.clean_structure loads s =
        Except.error studyFormInvalidJsonMsg ∧
      StudyBuildForm.clean_structure loads s =
        Except.error studyBuildFormInvalidJsonMsg) ∧
    (∀ j, loads s = some j →
      StudyForm.clean_structure loads s = Except.ok j ∧
      StudyBuildForm.clean_structure loads s = Except.ok j) := by
  constructor
  · intro h
    constructor <;>
      simp [StudyForm.clean_structure, StudyBuildForm.clean_structure,
        cleanStructureWith, h]
  · intro j h
    constructor <;>
      simp [StudyForm.clean_structure, StudyBuildForm.clean_structure,
        cleanStructureWith, h]

/-- A tiny stand-in for `json.loads` used by the C7 witness: it parses
exactly the string `"1"` (to the number 1) and rejects everything else. -/
def witnessLoads : String → Option ℕ :=
  fun s => if s = "1" then some 1 else none

/-- Witness for C7: the malformed payload `"not json"` is rejected with each
form's fixed message, and the well-formed payload `"1"` comes back parsed. -/
theorem c7_clean_structure_witness :
    (StudyForm.clean_structure witnessLoads "not json" =
      Except.error studyFormInvalidJsonMsg ∧
     StudyBuildForm.clean_structure witnessLoads "not json" =
      Except.error studyBuildFormInvalidJsonMsg) ∧
    (StudyForm.clean_structure witnessLoads "1" = Except.ok 1 ∧
     StudyBuildForm.clean_structure witnessLoads "1" = Except.ok 1) := by
  constructor
  · exact (c7_clean_structure witnessLoads "not json").1 (by decide)
  · exact (c7_clean_structure witnessLoads "1").2 1 (by decide)
